import Mathlib

/-!
Verification development for two source files of this repository:
nautilus_core/infrastructure/src/sql/cache_database.rs (the write-behind
persistence bridge) and nautilus_core/model/src/data/quote.rs (quote ticks).
Pure functions are embedded as Lean functions; the background worker loop is
embedded as a function over an explicit schedule of poll cycles; fallible
collaborators (database driver calls) are passed in as oracle arguments.
-/

/-- Outcome of a Rust computation that may panic, for example through an
unwrap call or an explicit panic invocation. -/
inductive RustOutcome (α : Type) where
  | ok (value : α)
  | panicked
deriving DecidableEq

/-- Byte blob, the Rust type Vec of u8. -/
abbrev Blob := List Nat

/-- Currency value object. The field layout is owned by the domain model and
excluded from this component (spec section 1), so the metadata beyond the
natural key is abstracted into a single field; the natural key is code. -/
structure Currency where
  code : String
  metadata : String
deriving DecidableEq

/-- Payload of one instrument variant. The field layout is owned by the
domain model and excluded from this component (spec section 1); the natural
key is instrument_id. -/
structure InstrumentRecord where
  instrument_id : String
  fields : String
deriving DecidableEq

/-- Polymorphic instrument value over 8 variants (enum InstrumentAny of the
domain model). -/
inductive InstrumentAny where
  | CryptoFuture (r : InstrumentRecord)
  | CryptoPerpetual (r : InstrumentRecord)
  | CurrencyPair (r : InstrumentRecord)
  | Equity (r : InstrumentRecord)
  | FuturesContract (r : InstrumentRecord)
  | FuturesSpread (r : InstrumentRecord)
  | OptionsContract (r : InstrumentRecord)
  | OptionsSpread (r : InstrumentRecord)
deriving DecidableEq

/-- Underlying record of an instrument value, whichever variant it is. -/
def InstrumentAny.record : InstrumentAny → InstrumentRecord
  | .CryptoFuture r => r
  | .CryptoPerpetual r => r
  | .CurrencyPair r => r
  | .Equity r => r
  | .FuturesContract r => r
  | .FuturesSpread r => r
  | .OptionsContract r => r
  | .OptionsSpread r => r

/-- Commands carried by the write-behind queue (enum DatabaseQuery,
cache_database.rs lines 48-52). -/
inductive DatabaseQuery where
  | Add (key : String) (value : Blob)
  | AddCurrency (currency : Currency)
  | AddInstrument (instrument : InstrumentAny)
deriving DecidableEq

/-- Flush interval of the worker, in milliseconds: the source function
get_buffer_interval (lines 54-56) returns Duration::from_millis(0). -/
def get_buffer_interval : Nat := 0

/-- One storage operation issued by drain_buffer against the store: the calls
to DatabaseQueries::add, DatabaseQueries::add_currency and
DatabaseQueries::add_instrument with a table namespace, recorded as trace
events. -/
inductive StorageOp where
  | addGeneral (key : String) (value : Blob)
  | addCurrency (currency : Currency)
  | addInstrument (table : String) (record : InstrumentRecord)
deriving DecidableEq

/-- Inner dispatch of drain_buffer on an AddInstrument command
(cache_database.rs lines 67-124): an exhaustive match over the 8 variants of
InstrumentAny, each arm calling DatabaseQueries::add_instrument with its own
table namespace; there is no default arm in the source. -/
def instrumentOp : InstrumentAny → StorageOp
  | .CryptoFuture crypto_future => .addInstrument "CRYPTO_FUTURE" crypto_future
  | .CryptoPerpetual crypto_perpetual => .addInstrument "CRYPTO_PERPETUAL" crypto_perpetual
  | .CurrencyPair currency_pair => .addInstrument "CURRENCY_PAIR" currency_pair
  | .Equity equity => .addInstrument "EQUITY" equity
  | .FuturesContract futures_contract => .addInstrument "FUTURES_CONTRACT" futures_contract
  | .FuturesSpread futures_spread => .addInstrument "FUTURES_SPREAD" futures_spread
  | .OptionsContract options_contract => .addInstrument "OPTIONS_CONTRACT" options_contract
  | .OptionsSpread options_spread => .addInstrument "OPTIONS_SPREAD" options_spread

/-- Function drain_buffer (lines 58-127): the for loop drains the buffer
from the front, issuing one storage operation per command, in order. The
definition returns the trace of issued operations; the buffer itself is left
empty by drain(..). -/
def drain_buffer : List DatabaseQuery → List StorageOp
  | [] => []
  | DatabaseQuery.Add key value :: rest => StorageOp.addGeneral key value :: drain_buffer rest
  | DatabaseQuery.AddCurrency currency :: rest => StorageOp.addCurrency currency :: drain_buffer rest
  | DatabaseQuery.AddInstrument instrument :: rest => instrumentOp instrument :: drain_buffer rest

/-- Storage operation of a single command: the specification-side view of
what one Command maps to (spec section 3, invariant b: each Command maps to
exactly one atomic storage operation). -/
def opOf : DatabaseQuery → StorageOp
  | DatabaseQuery.Add key value => StorageOp.addGeneral key value
  | DatabaseQuery.AddCurrency currency => StorageOp.addCurrency currency
  | DatabaseQuery.AddInstrument instrument => instrumentOp instrument

/-- One channel-poll cycle of the worker loop in handle_message, together
with the drain opportunity directly before it. Field due is the outcome of
the real-time check at line 157 comparing elapsed time since the last drain
with the buffer interval; real time is nondeterministic, so it enters the
model as an oracle. Field recv is the outcome of rx.try_recv() at line 163:
some msg for Ok, none for Empty (the worker sleeps and re-checks). The end
of the schedule is the Disconnected case, observed once every sender handle
has been dropped and all sent messages consumed. Because a drain empties the
buffer, the drain branch fires at most once between two consecutive polls,
so pairing each poll with the drain opportunity directly before it is a
faithful reindexing of the loop. -/
structure WorkerIter where
  due : Bool
  recv : Option DatabaseQuery
deriving DecidableEq

/-- Commands delivered by the channel over a schedule, in arrival order. -/
def delivered (sched : List WorkerIter) : List DatabaseQuery :=
  sched.filterMap WorkerIter.recv

/-- Worker loop PostgresCacheDatabase::handle_message (lines 148-174), as
the trace of storage operations it issues. Each cycle: when the elapsed-time
check passes and the buffer is non-empty, the whole buffer is drained in
order and the last-drain instant reset; otherwise the channel is polled and
a delivered command is appended to the buffer tail, an empty poll sleeps,
and a disconnected channel breaks the loop, after which any remaining
buffered commands are drained once, unconditionally of the interval (lines
171-173). The function terminates on every finite schedule. -/
def handle_message : List WorkerIter → List DatabaseQuery → List StorageOp → List StorageOp
  | [], buffer, flushed => flushed ++ drain_buffer buffer
  | it :: rest, buffer, flushed =>
      if it.due && !buffer.isEmpty then
        match it.recv with
        | some msg => handle_message rest [msg] (flushed ++ drain_buffer buffer)
        | none => handle_message rest [] (flushed ++ drain_buffer buffer)
      else
        match it.recv with
        | some msg => handle_message rest (buffer ++ [msg]) flushed
        | none => handle_message rest buffer flushed

/-- State of the bounded mpsc channel created in connect: the pending
messages in arrival order, the capacity, and whether the receiving side has
terminated (receiver dropped). -/
structure Channel where
  queue : List DatabaseQuery
  capacity : Nat
  closed : Bool
deriving DecidableEq

/-- Outcome of awaiting Sender::send on a bounded tokio mpsc channel: the
message is accepted into the queue; or the queue is at capacity and the
caller suspends until space frees up, the message never being dropped; or
the receiver has been dropped and a send error is returned carrying the
message back. -/
inductive SendOutcome where
  | sent (ch : Channel)
  | suspended
  | sendError
deriving DecidableEq

/-- Semantics of the bounded tokio mpsc send used by the enqueue surface. -/
def Channel.send (ch : Channel) (msg : DatabaseQuery) : SendOutcome :=
  if ch.closed then SendOutcome.sendError
  else if ch.capacity ≤ ch.queue.length then SendOutcome.suspended
  else SendOutcome.sent { ch with queue := ch.queue ++ [msg] }

/-- Read connection pool handle; internals owned by the database driver. -/
structure PgPool where
  id : Nat
deriving DecidableEq

/-- Connection options; internals owned by the database driver. -/
structure PgConnectOptions where
  id : Nat
deriving DecidableEq

/-- Error type of the database driver. -/
structure SqlxError where
  message : String
deriving DecidableEq

/-- Struct PostgresCacheDatabase (lines 41-44): the shared read pool and the
producer end of the command channel. -/
structure PostgresCacheDatabase where
  pool : PgPool
  tx : Channel
deriving DecidableEq

/-- Method PostgresCacheDatabase::connect (lines 130-146). The two fallible
collaborators are passed as oracles: opts is the result of
get_postgres_connect_options at line 138 and pool the result of connect_pg
at line 139, with none as their failure case. Both results are immediately
unwrapped by the source, so a failure panics instead of producing the Err
case of the declared return type Result of Self and sqlx::Error. On success
the command channel is created with capacity 1000 (line 140), the worker is
spawned, and the handle is returned. -/
def PostgresCacheDatabase.connect (opts : Option PgConnectOptions) (pool : Option PgPool) :
    RustOutcome (Except SqlxError PostgresCacheDatabase) :=
  match opts with
  | none => RustOutcome.panicked
  | some _ =>
    match pool with
    | none => RustOutcome.panicked
    | some p =>
        RustOutcome.ok (Except.ok
          { pool := p, tx := { queue := [], capacity := 1000, closed := false } })

/-- Result of one enqueue method: the command was accepted (with the updated
channel state), or the caller is suspended on a full queue, or the send
error was mapped to an anyhow error message and returned. -/
inductive EnqueueOutcome where
  | ok (db : PostgresCacheDatabase)
  | suspended
  | error (message : String)
deriving DecidableEq

/-- Method PostgresCacheDatabase::add (lines 193-198): build the Add command
and send it, mapping a send error to an anyhow error. -/
def PostgresCacheDatabase.add (db : PostgresCacheDatabase) (key : String) (value : Blob) :
    EnqueueOutcome :=
  match db.tx.send (DatabaseQuery.Add key value) with
  | SendOutcome.sent ch => EnqueueOutcome.ok { db with tx := ch }
  | SendOutcome.suspended => EnqueueOutcome.suspended
  | SendOutcome.sendError =>
      EnqueueOutcome.error "Failed to send query to database message handler"

/-- Method PostgresCacheDatabase::add_currency (lines 200-205). -/
def PostgresCacheDatabase.add_currency (db : PostgresCacheDatabase) (currency : Currency) :
    EnqueueOutcome :=
  match db.tx.send (DatabaseQuery.AddCurrency currency) with
  | SendOutcome.sent ch => EnqueueOutcome.ok { db with tx := ch }
  | SendOutcome.suspended => EnqueueOutcome.suspended
  | SendOutcome.sendError =>
      EnqueueOutcome.error "Failed to query add_currency to database message handler"

/-- Method PostgresCacheDatabase::add_instrument (lines 215-222). -/
def PostgresCacheDatabase.add_instrument (db : PostgresCacheDatabase)
    (instrument : InstrumentAny) : EnqueueOutcome :=
  match db.tx.send (DatabaseQuery.AddInstrument instrument) with
  | SendOutcome.sent ch => EnqueueOutcome.ok { db with tx := ch }
  | SendOutcome.suspended => EnqueueOutcome.suspended
  | SendOutcome.sendError =>
      EnqueueOutcome.error "Failed to send query add_instrument to database message handler"

/-- Row of the general table (struct GeneralRow of the models module). -/
structure GeneralRow where
  key : String
  value : Blob
deriving DecidableEq

/-- Upsert into an association list: replace the value stored at the key
when present, otherwise append the pair. This is the map write keyed by
natural identity used throughout the store model. -/
def upsert {κ α : Type} [DecidableEq κ] : List (κ × α) → κ → α → List (κ × α)
  | [], k, v => [(k, v)]
  | (k1, v1) :: rest, k, v =>
      if k1 = k then (k, v) :: rest else (k1, v1) :: upsert rest k v

/-- Lookup in an association list. -/
def lookupKV {κ α : Type} [DecidableEq κ] : List (κ × α) → κ → Option α
  | [], _ => none
  | (k1, v1) :: rest, k => if k1 = k then some v1 else lookupKV rest k

/-- Cache map built from the fetched rows, as the loop at lines 181-184 does
with HashMap::insert: later rows overwrite earlier rows sharing a key. -/
def buildCache (rows : List GeneralRow) : List (String × Blob) :=
  rows.foldl (fun cache row => upsert cache row.key row.value) []

/-- Method PostgresCacheDatabase::load (lines 176-191): the outcome of the
full scan SELECT * FROM general is the oracle argument; on success the rows
are folded into the cache map and returned in the Ok case; on failure the
source panics at line 188 instead of returning the error. -/
def PostgresCacheDatabase.load (fetched : Except SqlxError (List GeneralRow)) :
    RustOutcome (Except SqlxError (List (String × Blob))) :=
  match fetched with
  | Except.ok rows => RustOutcome.ok (Except.ok (buildCache rows))
  | Except.error _ => RustOutcome.panicked

/-- Observable storage state: the general key-to-blob table, the currency
table keyed by code, and the instrument tables keyed by the pair of table
namespace and instrument id. -/
structure Store where
  general : List (String × Blob)
  currencies : List (String × Currency)
  instruments : List ((String × String) × InstrumentRecord)
deriving DecidableEq

/-- Modelled from the spec: the bodies of DatabaseQueries::add,
DatabaseQueries::add_currency and DatabaseQueries::add_instrument live in
the sql::queries module of this repository, which is not under src. Spec
sections 3 invariant (c), 4.3 and the glossary fix their behaviour: every
write is an upsert keyed by natural identity (generic key, currency code,
instrument id), inserting a new row or overwriting the existing row sharing
the same key, never failing on conflict. -/
def applyOp (s : Store) : StorageOp → Store
  | StorageOp.addGeneral key value => { s with general := upsert s.general key value }
  | StorageOp.addCurrency c => { s with currencies := upsert s.currencies c.code c }
  | StorageOp.addInstrument table r =>
      { s with instruments := upsert s.instruments (table, r.instrument_id) r }

/-- Storage state after one flush of the buffer: drain_buffer executes its
operations in order against the store. -/
def flushStore (s : Store) (buffer : List DatabaseQuery) : Store :=
  (drain_buffer buffer).foldl applyOp s

/-- Configuration accepted by connect (host, port, username, password,
database): the entire configuration surface of the component. -/
structure DbConfig where
  host : Option String
  port : Option Nat
  username : Option String
  password : Option String
  database : Option String
deriving DecidableEq

/-- Buffer interval used by the worker under a given configuration:
handle_message reads it from get_buffer_interval() at line 153, a function
of no inputs, so the configuration is ignored. -/
def workerBufferInterval (_cfg : DbConfig) : Nat := get_buffer_interval

/-- Drain condition at the top of each worker cycle (line 157): elapsed time
since the last drain at least the buffer interval, and buffer non-empty. -/
def drainCondition (elapsed : Nat) (buffer : List DatabaseQuery) : Bool :=
  decide (get_buffer_interval ≤ elapsed) && !buffer.isEmpty

/-- Table namespace each instrument variant is dispatched to. -/
def instrumentTableName : InstrumentAny → String
  | .CryptoFuture _ => "CRYPTO_FUTURE"
  | .CryptoPerpetual _ => "CRYPTO_PERPETUAL"
  | .CurrencyPair _ => "CURRENCY_PAIR"
  | .Equity _ => "EQUITY"
  | .FuturesContract _ => "FUTURES_CONTRACT"
  | .FuturesSpread _ => "FUTURES_SPREAD"
  | .OptionsContract _ => "OPTIONS_CONTRACT"
  | .OptionsSpread _ => "OPTIONS_SPREAD"

/-- Discriminator of the variant tag of an instrument value. -/
def variantTag : InstrumentAny → Nat
  | .CryptoFuture _ => 0
  | .CryptoPerpetual _ => 1
  | .CurrencyPair _ => 2
  | .Equity _ => 3
  | .FuturesContract _ => 4
  | .FuturesSpread _ => 5
  | .OptionsContract _ => 6
  | .OptionsSpread _ => 7

/-- The 8 known encoder and table namespaces of the instrument dispatch, in
variant-tag order. -/
def knownInstrumentTables : List String :=
  ["CRYPTO_FUTURE", "CRYPTO_PERPETUAL", "CURRENCY_PAIR", "EQUITY",
   "FUTURES_CONTRACT", "FUTURES_SPREAD", "OPTIONS_CONTRACT", "OPTIONS_SPREAD"]

/-- Fixed-point price value (struct Price of the domain model): an i64 raw
value and a u8 precision. -/
structure Price where
  raw : Int
  precision : Nat
deriving DecidableEq

/-- Quantity value (struct Quantity of the domain model): a u64 raw value
and a u8 precision. -/
structure Quantity where
  raw : Nat
  precision : Nat
deriving DecidableEq

/-- Instrument identifier: symbol and venue. -/
structure InstrumentId where
  symbol : String
  venue : String
deriving DecidableEq

/-- Nanosecond timestamp. -/
abbrev UnixNanos := Nat

/-- Struct QuoteTick (quote.rs lines 35-43). -/
structure QuoteTick where
  instrument_id : InstrumentId
  bid : Price
  ask : Price
  bid_size : Quantity
  ask_size : Quantity
  ts_event : UnixNanos
  ts_init : UnixNanos
deriving DecidableEq

/-- Modelled from the spec: correctness::u8_equal lives in the core crate
of this repository, which is not under src. It asserts that the two u8
values are equal, panicking with the two parameter names otherwise; the
parameter-name arguments only feed the panic message. -/
def u8_equal (lhs rhs : Nat) (_lhs_param _rhs_param : String) : RustOutcome Unit :=
  if lhs = rhs then RustOutcome.ok () else RustOutcome.panicked

/-- Modelled from the spec: enum PriceType lives in the enums module of the
model crate, which is not under src. The variants used by extract_price are
Bid, Ask and Mid; Last is the remaining variant, caught by the fall-through
panic arm. -/
inductive PriceType where
  | Bid
  | Ask
  | Mid
  | Last
deriving DecidableEq

/-- Modelled from the spec: constant FIXED_PRECISION of the fixed module of
the model crate, which is not under src: the number of decimal places of
the fixed-point representation, 9. No claim depends on the exact value. -/
def FIXED_PRECISION : Nat := 9

/-- Constructor Price::from_raw of the domain model. -/
def Price.from_raw (raw : Int) (precision : Nat) : Price :=
  { raw := raw, precision := precision }

/-- Constructor QuoteTick::new (quote.rs lines 47-77): two correctness
checks on the precisions, then the struct is built from the arguments
unchanged. A failing check panics before the struct is built. -/
def QuoteTick.new (instrument_id : InstrumentId) (bid ask : Price)
    (bid_size ask_size : Quantity) (ts_event ts_init : UnixNanos) :
    RustOutcome QuoteTick :=
  match u8_equal bid.precision ask.precision "bid.precision" "ask.precision" with
  | RustOutcome.panicked => RustOutcome.panicked
  | RustOutcome.ok _ =>
    match u8_equal bid_size.precision ask_size.precision
        "bid_size.precision" "ask_size.precision" with
    | RustOutcome.panicked => RustOutcome.panicked
    | RustOutcome.ok _ =>
        RustOutcome.ok
          { instrument_id := instrument_id, bid := bid, ask := ask,
            bid_size := bid_size, ask_size := ask_size,
            ts_event := ts_event, ts_init := ts_init }

/-- Wrap of an arithmetic result into the two-complement range of i64. -/
def wrap64 (x : Int) : Int := (x + 2 ^ 63) % 2 ^ 64 - 2 ^ 63

/-- Method QuoteTick::extract_price (quote.rs lines 80-90). Bid and Ask
return the stored prices. Mid builds a price from the i64 computation of
the sum of the raw bid and ask divided by 2 (i64 division truncates toward
zero) with precision the minimum of bid precision plus 1 (u8 arithmetic)
and FIXED_PRECISION. Every other price type hits the fall-through panic
arm. -/
def QuoteTick.extract_price (t : QuoteTick) : PriceType → RustOutcome Price
  | PriceType.Bid => RustOutcome.ok t.bid
  | PriceType.Ask => RustOutcome.ok t.ask
  | PriceType.Mid =>
      RustOutcome.ok (Price.from_raw ((wrap64 (t.bid.raw + t.ask.raw)).tdiv 2)
        (min ((t.bid.precision + 1) % 256) FIXED_PRECISION))
  | PriceType.Last => RustOutcome.panicked

/-- A flush issues exactly the per-command storage operations of the
buffered commands, in buffer order. -/
theorem drain_buffer_eq_map (buffer : List DatabaseQuery) :
    drain_buffer buffer = buffer.map opOf := by
  induction buffer with
  | nil => rfl
  | cons cmd rest ih => cases cmd <;> simp [drain_buffer, opOf, ih]

/-- Every instrument dispatch arm issues the add_instrument operation of the
table namespace of the variant, on the underlying record. -/
theorem instrumentOp_eq (inst : InstrumentAny) :
    instrumentOp inst =
      StorageOp.addInstrument (instrumentTableName inst) inst.record := by
  cases inst <;> rfl

/-- Invariant of the worker loop: the trace issued from any loop state is
the already-flushed trace, then the operations of the current buffer, then
the operations of all commands the channel still delivers, in order. -/
theorem handle_message_eq (sched : List WorkerIter) :
    ∀ (buffer : List DatabaseQuery) (flushed : List StorageOp),
      handle_message sched buffer flushed =
        flushed ++ (buffer ++ delivered sched).map opOf := by
  induction sched with
  | nil =>
    intro buffer flushed
    simp [handle_message, delivered, drain_buffer_eq_map]
  | cons it rest ih =>
    intro buffer flushed
    cases hrecv : it.recv with
    | some msg =>
      by_cases hc : (it.due && !buffer.isEmpty) = true
      · simp [handle_message, hc, hrecv, ih, delivered,
          List.filterMap_cons_some hrecv, drain_buffer_eq_map]
      · simp [handle_message, hc, hrecv, ih, delivered,
          List.filterMap_cons_some hrecv]
    | none =>
      by_cases hc : (it.due && !buffer.isEmpty) = true
      · simp [handle_message, hc, hrecv, ih, delivered,
          List.filterMap_cons_none hrecv, drain_buffer_eq_map]
      · simp [handle_message, hc, hrecv, ih, delivered,
          List.filterMap_cons_none hrecv]

/-- Upserting the same key-value pair twice equals upserting it once. -/
theorem upsert_idem {κ α : Type} [DecidableEq κ] (l : List (κ × α)) (k : κ) (v : α) :
    upsert (upsert l k v) k v = upsert l k v := by
  induction l with
  | nil => simp [upsert]
  | cons hd rest ih =>
    obtain ⟨k1, v1⟩ := hd
    by_cases hk : k1 = k
    · simp [upsert, hk]
    · simp [upsert, hk, ih]

/-- Lookup after an upsert: the upserted key maps to the new value, every
other key is untouched. -/
theorem lookupKV_upsert {κ α : Type} [DecidableEq κ] (l : List (κ × α)) (k k2 : κ) (v : α) :
    lookupKV (upsert l k v) k2 = if k = k2 then some v else lookupKV l k2 := by
  induction l with
  | nil => simp [upsert, lookupKV]
  | cons hd rest ih =>
    obtain ⟨k1, v1⟩ := hd
    by_cases hk : k1 = k
    · subst hk
      by_cases hk2 : k1 = k2 <;> simp [upsert, lookupKV, hk2]
    · by_cases hk2 : k1 = k2
      · subst hk2
        have hk2 : ¬ k = k1 := fun h => hk h.symm
        simp [upsert, lookupKV, hk, hk2]
      · simp [upsert, lookupKV, hk, hk2, ih]

/-- The cache built by load maps each key to the value of the last fetched
row carrying that key. -/
theorem lookupKV_buildCache (rows : List GeneralRow) (k : String) :
    lookupKV (buildCache rows) k =
      (rows.reverse.find? (fun row => row.key = k)).map GeneralRow.value := by
  induction rows using List.reverseRecOn with
  | nil => simp [buildCache, lookupKV]
  | append_singleton rest row ih =>
    have hfold : buildCache (rest ++ [row]) = upsert (buildCache rest) row.key row.value := by
      simp [buildCache, List.foldl_append]
    rw [hfold, lookupKV_upsert]
    by_cases hk : row.key = k
    · simp [hk]
    · simp [hk, ih]

/-- Wrapping is the identity inside the i64 range. -/
theorem wrap64_eq (x : Int) (h1 : -(2 ^ 63) ≤ x) (h2 : x < 2 ^ 63) :
    wrap64 x = x := by
  unfold wrap64
  have hlo : (0 : Int) ≤ x + 2 ^ 63 := by linarith
  have hhi : x + 2 ^ 63 < 2 ^ 64 := by
    have : (2 : Int) ^ 64 = 2 ^ 63 + 2 ^ 63 := by norm_num
    linarith
  rw [Int.emod_eq_of_lt hlo hhi]
  ring

/-- Claim C1: for every sequence of commands admitted to the queue, the
worker appends each received command to the tail of its buffer and every
flush applies the buffered commands sequentially in arrival (FIFO) order,
one storage operation per command, with no reordering within a flush or
across flush boundaries. Formally: a flush of any buffer issues exactly the
per-command operations in buffer order, and over every schedule of poll
cycles (every timing of flush boundaries and arrivals) a full worker run
issues exactly the per-command operations of the delivered commands, in
arrival order. -/
theorem worker_fifo_ordering (sched : List WorkerIter) (buffer : List DatabaseQuery) :
    drain_buffer buffer = buffer.map opOf ∧
    handle_message sched [] [] = (delivered sched).map opOf := by
  refine ⟨drain_buffer_eq_map buffer, ?_⟩
  simpa using handle_message_eq sched [] []

/-- Claim C2: when the worker observes the queue closed it performs one
final full flush of any buffered commands and stops, so every command
admitted before closure is applied to storage before termination,
regardless of the flush-interval. Formally: the worker run is a total
function of the schedule (termination), and for every schedule — the due
flags being the flush-interval oracle — the storage operation of every
delivered command appears in the final trace. -/
theorem drain_on_close (sched : List WorkerIter) (q : DatabaseQuery)
    (h : q ∈ delivered sched) : opOf q ∈ handle_message sched [] [] := by
  rw [handle_message_eq sched [] []]
  simp only [List.nil_append]
  exact List.mem_map_of_mem opOf h

/-- Concrete run of drain_on_close: a single command delivered on a
schedule with a never-due timer is still flushed before termination. -/
theorem drain_on_close_witness :
    DatabaseQuery.Add "A" [1, 2, 3] ∈
      delivered [{ due := false, recv := some (DatabaseQuery.Add "A" [1, 2, 3]) }] ∧
    opOf (DatabaseQuery.Add "A" [1, 2, 3]) ∈
      handle_message [{ due := false, recv := some (DatabaseQuery.Add "A" [1, 2, 3]) }] [] [] :=
  ⟨by decide, drain_on_close _ _ (by decide)⟩

/-- Claim C3: the command queue has capacity 1000; each enqueue operation
(add, add_currency, add_instrument) suspends the caller when the queue is
full rather than dropping the command, and returns a typed error if and
only if the consuming side has terminated. Formally: connect creates the
channel with capacity 1000, each of the three enqueue methods returns an
error exactly when the channel is closed, and on a full open channel each
suspends. -/
theorem enqueue_backpressure (db : PostgresCacheDatabase) (key : String) (value : Blob)
    (c : Currency) (inst : InstrumentAny) (opts : PgConnectOptions) (p : PgPool) :
    (PostgresCacheDatabase.connect (some opts) (some p) =
      RustOutcome.ok (Except.ok
        { pool := p, tx := { queue := [], capacity := 1000, closed := false } })) ∧
    ((∃ m, db.add key value = EnqueueOutcome.error m) ↔ db.tx.closed = true) ∧
    ((∃ m, db.add_currency c = EnqueueOutcome.error m) ↔ db.tx.closed = true) ∧
    ((∃ m, db.add_instrument inst = EnqueueOutcome.error m) ↔ db.tx.closed = true) ∧
    (db.tx.closed = false → db.tx.capacity ≤ db.tx.queue.length →
      db.add key value = EnqueueOutcome.suspended ∧
      db.add_currency c = EnqueueOutcome.suspended ∧
      db.add_instrument inst = EnqueueOutcome.suspended) := by
  refine ⟨rfl, ?_, ?_, ?_, ?_⟩
  · by_cases hcl : db.tx.closed = true
    · simp [PostgresCacheDatabase.add, Channel.send, hcl]
    · simp only [Bool.not_eq_true] at hcl
      by_cases hfull : db.tx.capacity ≤ db.tx.queue.length <;>
        simp [PostgresCacheDatabase.add, Channel.send, hcl, hfull]
  · by_cases hcl : db.tx.closed = true
    · simp [PostgresCacheDatabase.add_currency, Channel.send, hcl]
    · simp only [Bool.not_eq_true] at hcl
      by_cases hfull : db.tx.capacity ≤ db.tx.queue.length <;>
        simp [PostgresCacheDatabase.add_currency, Channel.send, hcl, hfull]
  · by_cases hcl : db.tx.closed = true
    · simp [PostgresCacheDatabase.add_instrument, Channel.send, hcl]
    · simp only [Bool.not_eq_true] at hcl
      by_cases hfull : db.tx.capacity ≤ db.tx.queue.length <;>
        simp [PostgresCacheDatabase.add_instrument, Channel.send, hcl, hfull]
  · intro hcl hfull
    refine ⟨?_, ?_, ?_⟩ <;>
      simp [PostgresCacheDatabase.add, PostgresCacheDatabase.add_currency,
        PostgresCacheDatabase.add_instrument, Channel.send, hcl, hfull]

/-- Sample currency used by concrete runs. -/
def currency0 : Currency := { code := "USD", metadata := "United States dollar" }

/-- Sample instrument used by concrete runs. -/
def inst0 : InstrumentAny :=
  InstrumentAny.CryptoPerpetual { instrument_id := "ETHUSDT-PERP.BINANCE", fields := "p" }

/-- Handle whose channel receiver has terminated. -/
def dbClosed : PostgresCacheDatabase :=
  { pool := { id := 0 }, tx := { queue := [], capacity := 1000, closed := true } }

/-- Handle whose channel is open but at capacity. -/
def dbFull : PostgresCacheDatabase :=
  { pool := { id := 0 },
    tx := { queue := [DatabaseQuery.Add "k" []], capacity := 1, closed := false } }

/-- Concrete run of enqueue_backpressure: a full open queue suspends the
caller, a closed queue yields the typed error. -/
theorem enqueue_backpressure_witness :
    PostgresCacheDatabase.add dbFull "k" [1] = EnqueueOutcome.suspended ∧
    (∃ m, PostgresCacheDatabase.add dbClosed "k" [1] = EnqueueOutcome.error m) := by
  refine ⟨?_, ?_⟩
  · exact ((enqueue_backpressure dbFull "k" [1] currency0 inst0
      { id := 0 } { id := 0 }).2.2.2.2 (by decide) (by decide)).1
  · exact ((enqueue_backpressure dbClosed "k" [1] currency0 inst0
      { id := 0 } { id := 0 }).2.1).mpr (by decide)

/-- Claim C4: every InstrumentUpsert command resolves the variant tag of the
instrument to exactly one of the 8 known encoders and table namespaces, the
dispatch is exhaustive with no default branch, and no variant is silently
ignored. Formally: the dispatch is a total function on the 8-variant type
(exhaustiveness is forced at build time), every variant issues exactly one
add_instrument operation on the table of its tag (never ignored), the tag
indexes into the list of the 8 known namespaces, and those 8 namespaces are
pairwise distinct. -/
theorem instrument_dispatch_exhaustive (inst : InstrumentAny) :
    instrumentOp inst = StorageOp.addInstrument (instrumentTableName inst) inst.record ∧
    knownInstrumentTables[variantTag inst]? = some (instrumentTableName inst) ∧
    variantTag inst < 8 ∧
    knownInstrumentTables.length = 8 ∧
    knownInstrumentTables.Nodup := by
  refine ⟨instrumentOp_eq inst, ?_, ?_, by decide, by decide⟩
  · cases inst <;> rfl
  · cases inst <;> norm_num [variantTag]

/-- Input on which connect cannot establish the pool. -/
def pgOpts0 : PgConnectOptions := { id := 0 }

/-- Claim C5 settles as a code defect: the spec requires a connection
failure at startup to be surfaced to the caller of connect as a typed Err
result, but the source unwraps both the options result and the pool result,
so a failure panics; no input makes connect return the Err case of its own
declared result type. The first conjunct evaluates connect at the failing
input (pool establishment fails); the second shows the Err case is
unreachable for every input. -/
theorem connect_panics_on_connection_failure :
    PostgresCacheDatabase.connect (some pgOpts0) none = RustOutcome.panicked ∧
    ∀ (opts : Option PgConnectOptions) (pool : Option PgPool) (e : SqlxError),
      PostgresCacheDatabase.connect opts pool ≠ RustOutcome.ok (Except.error e) := by
  refine ⟨rfl, ?_⟩
  intro opts pool e
  cases opts <;> cases pool <;> simp [PostgresCacheDatabase.connect]

/-- Claim C6 counterexample: the claim states the flush-interval is a
tunable exposed as configuration, but the worker reads it from
get_buffer_interval, a function of no inputs hard-coded to zero, so no
configuration can set the interval to any other value — here, no
configuration yields the concrete interval of 1 millisecond. -/
theorem buffer_interval_not_configurable :
    ¬ ∃ cfg : DbConfig, workerBufferInterval cfg = 1 := by
  rintro ⟨cfg, h⟩
  simp [workerBufferInterval, get_buffer_interval] at h

/-- Claim C6 as amended: the flush-interval is hard-coded to zero
milliseconds and not exposed as configuration, and with this zero value the
drain condition of the worker holds on every cycle in which the buffer is
non-empty, whatever the elapsed time, so the worker flushes immediately. -/
theorem buffer_interval_hardcoded_zero (cfg : DbConfig) (elapsed : Nat)
    (buffer : List DatabaseQuery) (h : buffer ≠ []) :
    workerBufferInterval cfg = 0 ∧ drainCondition elapsed buffer = true := by
  refine ⟨rfl, ?_⟩
  cases buffer with
  | nil => exact absurd rfl h
  | cons q rest => simp [drainCondition, get_buffer_interval, List.isEmpty]

/-- Configuration with every connect parameter defaulted. -/
def cfg0 : DbConfig :=
  { host := none, port := none, username := none, password := none, database := none }

/-- Concrete run of buffer_interval_hardcoded_zero: with a one-command
buffer and zero elapsed time the drain condition already holds. -/
theorem buffer_interval_hardcoded_zero_witness :
    workerBufferInterval cfg0 = 0 ∧
    drainCondition 0 [DatabaseQuery.Add "A" [1]] = true :=
  buffer_interval_hardcoded_zero cfg0 0 [DatabaseQuery.Add "A" [1]] (by decide)

/-- Claim C7: load performs a full scan of the general table and on success
returns the mapping from each row key to its blob value (later rows
overwrite earlier ones sharing a key, as HashMap::insert does); when the
underlying query fails, the failure is treated as unrecoverable — the
operation panics and does not return the failure as a typed error to the
caller. -/
theorem load_success_or_panic (rows : List GeneralRow) (e : SqlxError) (k : String) :
    PostgresCacheDatabase.load (Except.ok rows) =
      RustOutcome.ok (Except.ok (buildCache rows)) ∧
    lookupKV (buildCache rows) k =
      (rows.reverse.find? (fun row => row.key = k)).map GeneralRow.value ∧
    PostgresCacheDatabase.load (Except.error e) = RustOutcome.panicked :=
  ⟨rfl, lookupKV_buildCache rows k, rfl⟩

/-- Claim C8: for every CurrencyUpsert or InstrumentUpsert command, flushing
the identical command twice yields the same observable storage state as
flushing it once, and the repeated write with the same natural key
(currency code, instrument id) overwrites whatever the store held there,
never failing on conflict (the store transition is a total function). -/
theorem upsert_idempotence (s : Store) (c : Currency) (inst : InstrumentAny) :
    flushStore s [DatabaseQuery.AddCurrency c, DatabaseQuery.AddCurrency c] =
      flushStore s [DatabaseQuery.AddCurrency c] ∧
    flushStore s [DatabaseQuery.AddInstrument inst, DatabaseQuery.AddInstrument inst] =
      flushStore s [DatabaseQuery.AddInstrument inst] ∧
    lookupKV (flushStore s [DatabaseQuery.AddCurrency c]).currencies c.code = some c ∧
    lookupKV (flushStore s [DatabaseQuery.AddInstrument inst]).instruments
      (instrumentTableName inst, inst.record.instrument_id) = some inst.record := by
  refine ⟨?_, ?_, ?_, ?_⟩
  · simp [flushStore, drain_buffer, applyOp, upsert_idem]
  · simp [flushStore, drain_buffer, instrumentOp_eq, applyOp, upsert_idem]
  · simp [flushStore, drain_buffer, applyOp, lookupKV_upsert]
  · simp [flushStore, drain_buffer, instrumentOp_eq, applyOp, lookupKV_upsert]

/-- Claim C9: QuoteTick::new requires equal bid and ask precisions and
equal bid-size and ask-size precisions as a precondition; under that
precondition the correctness checks cannot fail and the constructor returns
a QuoteTick whose seven fields equal the corresponding arguments
unchanged. -/
theorem quote_tick_new_ok (instrument_id : InstrumentId) (bid ask : Price)
    (bid_size ask_size : Quantity) (ts_event ts_init : UnixNanos)
    (h1 : bid.precision = ask.precision) (h2 : bid_size.precision = ask_size.precision) :
    QuoteTick.new instrument_id bid ask bid_size ask_size ts_event ts_init =
      RustOutcome.ok
        { instrument_id := instrument_id, bid := bid, ask := ask,
          bid_size := bid_size, ask_size := ask_size,
          ts_event := ts_event, ts_init := ts_init } := by
  simp [QuoteTick.new, u8_equal, h1, h2]

/-- Sample instrument identifier used by concrete runs. -/
def instId0 : InstrumentId := { symbol := "ETHUSDT-PERP", venue := "BINANCE" }

/-- Concrete run of quote_tick_new_ok at matching precisions. -/
theorem quote_tick_new_ok_witness :
    QuoteTick.new instId0 { raw := 100000000, precision := 4 }
      { raw := 100010000, precision := 4 } { raw := 100000000, precision := 8 }
      { raw := 200000000, precision := 8 } 1 2 =
      RustOutcome.ok
        { instrument_id := instId0, bid := { raw := 100000000, precision := 4 },
          ask := { raw := 100010000, precision := 4 },
          bid_size := { raw := 100000000, precision := 8 },
          ask_size := { raw := 200000000, precision := 8 },
          ts_event := 1, ts_init := 2 } :=
  quote_tick_new_ok instId0 { raw := 100000000, precision := 4 }
    { raw := 100010000, precision := 4 } { raw := 100000000, precision := 8 }
    { raw := 200000000, precision := 8 } 1 2 rfl rfl

/-- Claim C10: extract_price returns the stored bid price for Bid, the
stored ask price for Ask, and for Mid a price whose raw value is the sum of
the raw bid and ask divided by 2 with truncating integer division and whose
precision is the minimum of bid precision plus 1 and FIXED_PRECISION; for
any other price type the function panics. The hypotheses keep the i64 sum
and the u8 precision increment inside their machine ranges, where the
wrapping embeddings coincide with the exact arithmetic of the claim. -/
theorem extract_price_cases (t : QuoteTick)
    (hlo : -(2 ^ 63) ≤ t.bid.raw + t.ask.raw) (hhi : t.bid.raw + t.ask.raw < 2 ^ 63)
    (hp : t.bid.precision < 255) :
    t.extract_price PriceType.Bid = RustOutcome.ok t.bid ∧
    t.extract_price PriceType.Ask = RustOutcome.ok t.ask ∧
    t.extract_price PriceType.Mid = RustOutcome.ok
      (Price.from_raw ((t.bid.raw + t.ask.raw).tdiv 2)
        (min (t.bid.precision + 1) FIXED_PRECISION)) ∧
    t.extract_price PriceType.Last = RustOutcome.panicked := by
  refine ⟨rfl, rfl, ?_, rfl⟩
  simp only [QuoteTick.extract_price]
  rw [wrap64_eq _ hlo hhi, Nat.mod_eq_of_lt (by omega : t.bid.precision + 1 < 256)]

/-- Sample quote tick used by concrete runs: the values of the source test
test_extract_price. -/
def tick0 : QuoteTick :=
  { instrument_id := instId0,
    bid := { raw := 10000000000000, precision := 4 },
    ask := { raw := 10001000000000, precision := 4 },
    bid_size := { raw := 100000000, precision := 8 },
    ask_size := { raw := 100000000, precision := 8 },
    ts_event := 0, ts_init := 0 }

/-- Concrete run of extract_price_cases on the tick of the source test:
the mid price has raw value 10000500000000 and precision 5. -/
theorem extract_price_cases_witness :
    (-(2 ^ 63) ≤ tick0.bid.raw + tick0.ask.raw) ∧
    tick0.bid.raw + tick0.ask.raw < 2 ^ 63 ∧
    tick0.bid.precision < 255 ∧
    tick0.extract_price PriceType.Mid =
      RustOutcome.ok (Price.from_raw 10000500000000 5) := by
  refine ⟨by decide, by decide, by decide, ?_⟩
  have h := (extract_price_cases tick0 (by decide) (by decide) (by decide)).2.2.1
  rw [h]
  rfl
